import Mathlib

/-!
Verification of the quota-optimization layer of the gcp-o11y-mcp server
(Go sources under internal/logging): filter compilation, page-size policy,
result cache, retry coordinator, preset catalog, and the search matching
logic.  Each Go function used by a claim is shallowly embedded as an
executable Lean definition; wall-clock instants are passed explicitly
(seconds for filter/preset timestamps, nanoseconds for cache TTLs and
backoff durations), and Go `time.Format(time.RFC3339)` is modelled as UTC
RFC3339 rendering of a Unix-seconds instant.
-/

namespace O11y

/-! ### String primitives mirroring the Go `strings` package -/

/-- Is `needle` a prefix of `hay`?  (Char-exact, mirrors byte prefix for
the ASCII data handled here.) -/
def isPrefixChars : List Char → List Char → Bool
  | [], _ => true
  | _ :: _, [] => false
  | a :: as, b :: bs => a == b && isPrefixChars as bs

/-- Model of `strings.Contains` on char lists: does `hay` contain `needle` as a
contiguous segment? -/
def hasSeg (needle : List Char) : List Char → Bool
  | [] => needle.isEmpty
  | c :: cs => isPrefixChars needle (c :: cs) || hasSeg needle cs

/-- Go `strings.Contains hay needle`. -/
def strContains (hay needle : String) : Bool :=
  hasSeg needle.data hay.data

/-- Go `strings.ToLower` (ASCII case mapping; the repository only feeds it
ASCII queries, severities and error texts). -/
def lowerStr (s : String) : String :=
  String.mk (s.data.map Char.toLower)

/-- Go `strings.ToUpper` (ASCII). -/
def upperStr (s : String) : String :=
  String.mk (s.data.map Char.toUpper)

/-- Splitter for `strings.Fields`: walk the characters, accumulating the
current token (reversed); whitespace flushes the token, empties are
dropped. -/
def splitFieldsAux : List Char → List Char → List String
  | [], acc => if acc.isEmpty then [] else [String.mk acc.reverse]
  | c :: cs, acc =>
    if c.isWhitespace then
      (if acc.isEmpty then [] else [String.mk acc.reverse]) ++ splitFieldsAux cs []
    else splitFieldsAux cs (c :: acc)

/-- Go `strings.Fields`: split on whitespace runs, dropping empty
tokens. -/
def goFields (s : String) : List String :=
  splitFieldsAux s.data []

/-! ### RFC3339 rendering of a Unix-seconds instant (UTC)

Models the Go `time.Format(time.RFC3339)`; the host clock is modelled in
UTC so the rendered zone is `Z`. -/

/-- Zero-pad a day/month/hour/minute/second component to two digits. -/
def pad2 (n : Int) : String :=
  (if n < 10 then "0" else "") ++ toString n

/-- Zero-pad a year to four digits. -/
def pad4 (n : Int) : String :=
  (if n < 10 then "000" else if n < 100 then "00" else if n < 1000 then "0" else "") ++ toString n

/-- Civil date (year, month, day) from days since the Unix epoch
(standard era-based algorithm; `/` and `%` on `Int` are Euclidean, which
for the positive divisors used here is floor division). -/
def civilFromDays (z0 : Int) : Int × Int × Int :=
  let z := z0 + 719468
  let era := z / 146097
  let doe := z % 146097
  let yoe := (doe - doe / 1460 + doe / 36524 - doe / 146096) / 365
  let doy := doe - (365 * yoe + yoe / 4 - yoe / 100)
  let mp := (5 * doy + 2) / 153
  let d := doy - (153 * mp + 2) / 5 + 1
  let m := mp + (if mp < 10 then 3 else -9)
  (yoe + era * 400 + (if m ≤ 2 then 1 else 0), m, d)

/-- UTC RFC3339 string of a Unix-seconds instant. -/
def rfc3339 (secs : Int) : String :=
  let days := secs / 86400
  let sod := secs % 86400
  let ymd := civilFromDays days
  pad4 ymd.1 ++ "-" ++ pad2 ymd.2.1 ++ "-" ++ pad2 ymd.2.2 ++ "T" ++
    pad2 (sod / 3600) ++ ":" ++ pad2 (sod % 3600 / 60) ++ ":" ++ pad2 (sod % 60) ++ "Z"

/-! ### FilterBuilder (internal/logging/filter_builder.go) -/

structure FilterBuilder where
  filters : List String
deriving Repr, DecidableEq

def NewFilterBuilder : FilterBuilder := ⟨[]⟩

/-- The `timestamp >= "%s"` clause shape used by both `AddTimeRange` and
`AddDefaultTimeConstraint`. -/
def tsLowerClause (t : String) : String :=
  "timestamp >= \"" ++ t ++ "\""

def tsUpperClause (t : String) : String :=
  "timestamp <= \"" ++ t ++ "\""

def FilterBuilder.AddTimeRange (fb : FilterBuilder) (startTime endTime : String) : FilterBuilder :=
  let fb := if startTime ≠ "" then ⟨fb.filters ++ [tsLowerClause startTime]⟩ else fb
  if endTime ≠ "" then ⟨fb.filters ++ [tsUpperClause endTime]⟩ else fb

def FilterBuilder.AddSeverity (fb : FilterBuilder) (severity : String) : FilterBuilder :=
  if severity ≠ "" then ⟨fb.filters ++ ["severity >= " ++ upperStr severity]⟩ else fb

def FilterBuilder.AddCloudRunService (fb : FilterBuilder) (serviceName : String) : FilterBuilder :=
  if serviceName ≠ "" then
    ⟨fb.filters ++ ["resource.type=\"cloud_run_revision\"",
                    "resource.labels.service_name=\"" ++ serviceName ++ "\""]⟩
  else fb

def FilterBuilder.AddLogName (fb : FilterBuilder) (logName : String) : FilterBuilder :=
  if logName ≠ "" then ⟨fb.filters ++ ["logName=\"" ++ logName ++ "\""]⟩ else fb

def FilterBuilder.AddKeywords (fb : FilterBuilder) (keywords : String) : FilterBuilder :=
  if keywords ≠ "" then
    let fb :=
      if strContains keywords "error" || strContains keywords "ERROR" then
        ⟨fb.filters ++ ["severity >= ERROR"]⟩
      else fb
    ⟨fb.filters ++ ["(textPayload:\"" ++ keywords ++ "\" OR jsonPayload.message:\"" ++ keywords ++ "\")"]⟩
  else fb

/-- Model of `AddDefaultTimeConstraint`, with the wall clock passed explicitly as
Unix seconds: injects `timestamp >= "<now − 24h>"` unless some already
accumulated clause contains the substring `timestamp`. -/
def FilterBuilder.AddDefaultTimeConstraint (fb : FilterBuilder) (now : Int) : FilterBuilder :=
  let hasTimeFilter := fb.filters.any (fun f => strContains f "timestamp")
  if !hasTimeFilter then
    ⟨fb.filters ++ [tsLowerClause (rfc3339 (now - 24 * 3600))]⟩
  else fb

/-- Go `strings.Join`. -/
def goJoin (sep : String) : List String → String
  | [] => ""
  | [x] => x
  | x :: y :: xs => x ++ sep ++ goJoin sep (y :: xs)

def FilterBuilder.Build (fb : FilterBuilder) : String :=
  if fb.filters = [] then "" else goJoin " AND " fb.filters

/-! ### search_logs arguments and filter compilation (internal/logging/search_logs.go) -/

structure SearchLogsArgs where
  Query : String
  StartTime : String
  EndTime : String
  Severity : String
  Resource : String
  LogName : String
  PageSize : Int
  OrderBy : String
deriving Repr, DecidableEq

/-- Model of `parseQueryForOptimizedFilters`: lowercases the query; when it
mentions `casone`, `tenant` or `api`, scans whitespace tokens for the
first hyphenated token longer than 5 characters and adds it as a Cloud
Run service clause; always runs `AddKeywords` on the lowercased query. -/
def parseQueryForOptimizedFilters (query : String) (fb : FilterBuilder) : FilterBuilder :=
  let q := lowerStr query
  let fb :=
    if strContains q "casone" || strContains q "tenant" || strContains q "api" then
      match (goFields q).find? (fun part => strContains part "-" && part.length > 5) with
      | some part => fb.AddCloudRunService part
      | none => fb
    else fb
  fb.AddKeywords q

/-- The inline resource-type step of `buildOptimizedFilter`: when the
resource field is non-empty, append a resource.type equality clause. -/
def resourceStep (fb : FilterBuilder) (resource : String) : FilterBuilder :=
  if resource ≠ "" then ⟨fb.filters ++ ["resource.type=\"" ++ resource ++ "\""]⟩ else fb

/-- The guarded query-parsing step of `buildOptimizedFilter`. -/
def queryStep (fb : FilterBuilder) (query : String) : FilterBuilder :=
  if query ≠ "" then parseQueryForOptimizedFilters query fb else fb

/-- The builder state of `buildOptimizedFilter` just before
`AddDefaultTimeConstraint`: time range, severity, resource type,
log name, then query-derived clauses, in source order. -/
def preDefaultBuilder (params : SearchLogsArgs) : FilterBuilder :=
  queryStep
    (FilterBuilder.AddLogName
      (resourceStep
        ((NewFilterBuilder.AddTimeRange params.StartTime params.EndTime).AddSeverity
          params.Severity)
        params.Resource)
      params.LogName)
    params.Query

/-- Model of `buildOptimizedFilter` with the wall clock (Unix seconds) passed
explicitly. -/
def buildOptimizedFilter (params : SearchLogsArgs) (now : Int) : String :=
  ((preDefaultBuilder params).AddDefaultTimeConstraint now).Build

/-! ### Log entries and the search matching logic -/

/-- The payload of a remote log entry: the Go `entry.Payload` is either a
string, a `map[string]interface{}` (matched and cached through its
`json.Marshal` rendering, which is what we carry), or something else. -/
inductive GoPayload
  | nothing
  | text (s : String)
  | jsonStr (marshaled : String)
deriving Repr, DecidableEq

/-- A raw entry produced by the remote log-store iterator
(`cloud.google.com/go/logging.Entry`, the fields this code reads). -/
structure RemoteEntry where
  Timestamp : Int
  Severity : String
  LogName : String
  InsertID : String
  Trace : String
  Resource : Option (String × List (String × String))
  Labels : Option (List (String × String))
  Payload : GoPayload
deriving Repr, DecidableEq

/-- The outgoing `LogEntry` projection (list_log_entries.go). -/
structure LogEntry where
  Timestamp : String
  Severity : String
  LogName : String
  Resource : Option (String × List (String × String))
  Labels : Option (List (String × String))
  TextPayload : String
  JSONPayload : Option String
  InsertID : String
  TraceID : String
deriving Repr, DecidableEq

/-- The per-entry conversion done inside both fetch loops. -/
def convertEntry (e : RemoteEntry) : LogEntry :=
  { Timestamp := rfc3339 e.Timestamp
    Severity := e.Severity
    LogName := e.LogName
    Resource := e.Resource
    Labels := e.Labels
    TextPayload := match e.Payload with | .text s => s | _ => ""
    JSONPayload := match e.Payload with | .jsonStr s => some s | _ => none
    InsertID := e.InsertID
    TraceID := e.Trace }

/-- Model of `isStructuredQuery` (search_logs.go): case-sensitive containment. -/
def isStructuredQuery (query : String) : Bool :=
  strContains query "service_name" || strContains query "cloud_run"

/-- Model of `matchesQuery` (search_logs.go): structured queries skip client-side
matching; otherwise a lowercased substring match against log name,
payload (text or marshaled JSON) and label keys/values. -/
def matchesQuery (e : RemoteEntry) (query : String) : Bool :=
  if isStructuredQuery query then true
  else
    let q := lowerStr query
    strContains (lowerStr e.LogName) q ||
    (match e.Payload with
     | .text s => strContains (lowerStr s) q
     | .jsonStr s => strContains (lowerStr s) q
     | .nothing => false) ||
    (match e.Labels with
     | some lbls => lbls.any (fun kv => strContains (lowerStr kv.1) q || strContains (lowerStr kv.2) q)
     | none => false)

/-! ### Page-size normalization and the fetch loops

`SearchLogsTool.Execute` (search_logs.go) and
`ListLogEntriesTools.Execute` (list_log_entries.go) both normalize the
requested page size as: if 0 then 10, then clamp anything above 20 down
to 20.  The remote iterator is modelled as the list of entries it would
yield in order; consuming it with the loop early-break mirrors the
`count >= params.PageSize` check at the top of each iteration. -/

/-- Page-size normalization in `SearchLogsTool.Execute`. -/
def searchNormalizePageSize (ps : Int) : Int :=
  let ps := if ps = 0 then 10 else ps
  if ps > 20 then 20 else ps

/-- Page-size normalization in `ListLogEntriesTools.Execute` (same lines,
duplicated in the source). -/
def listNormalizePageSize (ps : Int) : Int :=
  let ps := if ps = 0 then 10 else ps
  if ps > 20 then 20 else ps

/-- The collection loop of `SearchLogsTool.searchLogs`: stops once
`count >= pageSize`, skips entries failing `matchesQuery`, converts the
rest. -/
def searchCollect (query : String) (pageSize : Int) (count : Int) : List RemoteEntry → List LogEntry
  | [] => []
  | e :: rest =>
    if count ≥ pageSize then []
    else if matchesQuery e query then
      convertEntry e :: searchCollect query pageSize (count + 1) rest
    else
      searchCollect query pageSize count rest

/-- Model of `SearchLogsTool.searchLogs` on a remote stream. -/
def searchLogs (params : SearchLogsArgs) (stream : List RemoteEntry) : List LogEntry :=
  searchCollect params.Query params.PageSize 0 stream

/-- Arguments of the `list_log_entries` tool (list_log_entries.go). -/
structure ListLogEntriesArgs where
  Filter : String
  PageSize : Int
  OrderBy : String
deriving Repr, DecidableEq

/-- The collection loop of `ListLogEntriesTools.listLogEntries`: stops
once `count >= pageSize`, converts every entry (no client-side
filtering). -/
def listCollect (pageSize : Int) (count : Int) : List RemoteEntry → List LogEntry
  | [] => []
  | e :: rest =>
    if count ≥ pageSize then []
    else convertEntry e :: listCollect pageSize (count + 1) rest

/-- Model of `ListLogEntriesTools.listLogEntries` on a remote stream. -/
def listLogEntries (params : ListLogEntriesArgs) (stream : List RemoteEntry) : List LogEntry :=
  listCollect params.PageSize 0 stream

/-! ### RateLimiter (list_log_entries.go, lines 396-443)

Errors carry an optional gRPC status code (present when the Go
`status.FromError` succeeds) and the error text.  Durations are integer
nanoseconds; the 10% deterministic jitter (`float64(backoff) * 0.1`) is
modelled as integer division by ten.  An operation is modelled as the
map from 0-based invocation index to its outcome (`none` = success). -/

structure GError where
  grpcCode : Option Nat
  msg : String
deriving Repr, DecidableEq

/-- Model of `google.golang.org/grpc/codes.ResourceExhausted`. -/
def codeResourceExhausted : Nat := 8

/-- Model of `RateLimiter.isQuotaExceededError`. -/
def isQuotaExceededError (e : GError) : Bool :=
  if e.grpcCode == some codeResourceExhausted then true
  else
    let errStr := lowerStr e.msg
    strContains errStr "quota exceeded" ||
    strContains errStr "rate limit" ||
    strContains errStr "resource exhausted"

structure RateLimiter where
  backoffDuration : Nat
  maxRetries : Nat
deriving Repr, DecidableEq

def NewRateLimiter : RateLimiter := ⟨1000000000, 3⟩

/-- Model of `RateLimiter.calculateBackoff`: exponential backoff plus a 10%
deterministic jitter. -/
def calculateBackoff (r : RateLimiter) (attempt : Nat) : Nat :=
  let backoff := r.backoffDuration * 2 ^ attempt
  backoff + backoff / 10

/-- The final error of `ExecuteWithBackoff`: a non-quota error is
returned unchanged; retry exhaustion wraps the last error
(`"max retries exceeded: %w"`). -/
inductive BackoffErr
  | direct (e : GError)
  | exhausted (last : Option GError)
deriving Repr, DecidableEq

structure BackoffOutcome where
  err : Option BackoffErr
  calls : Nat
  sleeps : List Nat
deriving Repr, DecidableEq

/-- The retry loop body (`for attempt := 0; attempt <= maxRetries`),
with `fuel = maxRetries + 1 - attempt` making the loop bound
structural. -/
def backoffGo (r : RateLimiter) (op : Nat → Option GError) (lastErr : Option GError)
    (attempt calls : Nat) (sleeps : List Nat) : Nat → BackoffOutcome
  | 0 => ⟨some (.exhausted lastErr), calls, sleeps⟩
  | fuel + 1 =>
    match op calls with
    | none => ⟨none, calls + 1, sleeps⟩
    | some e =>
      if !isQuotaExceededError e then ⟨some (.direct e), calls + 1, sleeps⟩
      else if attempt < r.maxRetries then
        backoffGo r op (some e) (attempt + 1) (calls + 1) (sleeps ++ [calculateBackoff r attempt]) fuel
      else
        backoffGo r op (some e) (attempt + 1) (calls + 1) sleeps fuel

/-- Model of `RateLimiter.ExecuteWithBackoff`, returning the final result, the
number of invocations of the operation, and the sleeps performed. -/
def ExecuteWithBackoff (r : RateLimiter) (op : Nat → Option GError) : BackoffOutcome :=
  backoffGo r op none 0 0 [] (r.maxRetries + 1)

/-! ### LogCache (cache.go)

Instants and TTLs are integer nanoseconds; the map is a function from
keys to optional entries; `Get` takes the current instant explicitly
(`time.Since(entry.Timestamp) = now - entry.Timestamp`). -/

structure CacheEntry where
  Data : List LogEntry
  Timestamp : Int
  TTL : Int

def LogCache : Type := String → Option CacheEntry

def LogCache.empty : LogCache := fun _ => none

/-- Model of `LogCache.Get`: a miss when no entry exists or when
`now - entry.Timestamp > entry.TTL`; otherwise a hit with the stored
records.  Reading performs no state change (the Go code takes only a
read lock and writes nothing), so the model is a pure reader. -/
def LogCache.Get (c : LogCache) (key : String) (now : Int) : Option (List LogEntry) :=
  match c key with
  | none => none
  | some e => if now - e.Timestamp > e.TTL then none else some e.Data

/-- Model of `LogCache.Set`: inserts or replaces the entry, stamping the current
instant as creation time. -/
def LogCache.Set (c : LogCache) (key : String) (data : List LogEntry) (ttl : Int)
    (now : Int) : LogCache :=
  fun k => if k = key then some ⟨data, now, ttl⟩ else c k

/-! ### Preset catalog (preset_queries.go)

`GetPresetQuery` returns (filter, pageSize, error).  The Go map lookup
followed by a `switch` on the same name is flattened into one case
analysis, since the four switch cases exactly cover the map keys; the
wall clock (Unix seconds) is passed explicitly and `fmt.Sprintf` of the
`%s` templates is carried out as string concatenation. -/

structure PresetResult where
  filter : String
  pageSize : Int
  err : Option String
deriving Repr, DecidableEq

def GetPresetQuery (now : Int) (queryName : String) (params : List String) : PresetResult :=
  if queryName = "cloud_run_errors" then
    ⟨"resource.type=\"cloud_run_revision\" AND severity>=ERROR AND timestamp>=\"" ++
       rfc3339 (now - 3600) ++ "\"", 10, none⟩
  else if queryName = "cloud_run_service_errors" then
    match params with
    | [] => ⟨"", 0, some "service name parameter required for cloud_run_service_errors"⟩
    | serviceName :: _ =>
      ⟨"resource.type=\"cloud_run_revision\" AND resource.labels.service_name=\"" ++ serviceName ++
         "\" AND severity>=ERROR AND timestamp>=\"" ++ rfc3339 (now - 2 * 3600) ++ "\"", 15, none⟩
  else if queryName = "recent_logs" then
    ⟨"timestamp>=\"" ++ rfc3339 (now - 3600) ++ "\"", 20, none⟩
  else if queryName = "high_severity" then
    ⟨"severity>=ERROR AND timestamp>=\"" ++ rfc3339 (now - 6 * 3600) ++ "\"", 10, none⟩
  else
    ⟨"", 0, some ("preset query \x27" ++ queryName ++ "\x27 not found")⟩

/-! ### MD5 and cache-key generation (cache.go, lines 59-62)

`LogCache.GenerateKey` hashes `fmt.Sprintf("%+v", params)` with MD5 and
renders the 16-byte digest as 32 lowercase hex characters.  MD5 is
implemented here over byte lists (bytes as `Nat` below 256, words as
`Nat` reduced mod 2^32). -/

/-- UTF-8 encoding of one character (Go `[]byte(s)` is UTF-8). -/
def utf8EncodeChar (c : Char) : List Nat :=
  let n := c.toNat
  if n < 128 then [n]
  else if n < 2048 then [192 + n / 64, 128 + n % 64]
  else if n < 65536 then [224 + n / 4096, 128 + n / 64 % 64, 128 + n % 64]
  else [240 + n / 262144, 128 + n / 4096 % 64, 128 + n / 64 % 64, 128 + n % 64]

def strBytes (s : String) : List Nat :=
  (s.data.map utf8EncodeChar).flatten

def add32 (a b : Nat) : Nat := (a + b) % 4294967296

/-- Rotate a 32-bit word left by `s` (for `x < 2^32`, `s ≤ 32`). -/
def rotl32 (x s : Nat) : Nat := (x * 2 ^ s + x / 2 ^ (32 - s)) % 4294967296

/-- The MD5 mixing function of round `i`. -/
def md5F (i b c d : Nat) : Nat :=
  if i < 16 then (b &&& c) ||| ((b ^^^ 4294967295) &&& d)
  else if i < 32 then (d &&& b) ||| ((d ^^^ 4294967295) &&& c)
  else if i < 48 then b ^^^ c ^^^ d
  else c ^^^ (b ||| (d ^^^ 4294967295))

/-- The message-word index of round `i`. -/
def md5G (i : Nat) : Nat :=
  if i < 16 then i
  else if i < 32 then (5 * i + 1) % 16
  else if i < 48 then (3 * i + 5) % 16
  else (7 * i) % 16

/-- Per-round left-rotation amounts. -/
def md5S : List Nat :=
  [7, 12, 17, 22, 7, 12, 17, 22, 7, 12, 17, 22, 7, 12, 17, 22,
   5, 9, 14, 20, 5, 9, 14, 20, 5, 9, 14, 20, 5, 9, 14, 20,
   4, 11, 16, 23, 4, 11, 16, 23, 4, 11, 16, 23, 4, 11, 16, 23,
   6, 10, 15, 21, 6, 10, 15, 21, 6, 10, 15, 21, 6, 10, 15, 21]

/-- The sine-derived MD5 round constants. -/
def md5K : List Nat :=
  [3614090360, 3905402710, 606105819, 3250441966, 4118548399, 1200080426, 2821735955, 4249261313,
   1770035416, 2336552879, 4294925233, 2304563134, 1804603682, 4254626195, 2792965006, 1236535329,
   4129170786, 3225465664, 643717713, 3921069994, 3593408605, 38016083, 3634488961, 3889429448,
   568446438, 3275163606, 4107603335, 1163531501, 2850285829, 4243563512, 1735328473, 2368359562,
   4294588738, 2272392833, 1839030562, 4259657740, 2763975236, 1272893353, 4139469664, 3200236656,
   681279174, 3936430074, 3572445317, 76029189, 3654602809, 3873151461, 530742520, 3299628645,
   4096336452, 1126891415, 2878612391, 4237533241, 1700485571, 2399980690, 4293915773, 2240044497,
   1873313359, 4264355552, 2734768916, 1309151649, 4149444226, 3174756917, 718787259, 3951481745]

/-- Eight little-endian bytes of the 2^64-reduced bit length. -/
def le8 (x : Nat) : List Nat :=
  (List.range 8).map (fun i => x / 2 ^ (8 * i) % 256)

/-- Four little-endian bytes of a 32-bit word. -/
def le4 (x : Nat) : List Nat :=
  [x % 256, x / 256 % 256, x / 65536 % 256, x / 16777216 % 256]

/-- MD5 padding: `0x80`, zeros to 56 mod 64, then the original bit
length in 8 little-endian bytes. -/
def md5Pad (msg : List Nat) : List Nat :=
  msg ++ [128] ++ List.replicate ((119 - msg.length % 64) % 64) 0 ++
    le8 (8 * msg.length % 2 ^ 64)

/-- The sixteen 32-bit little-endian words of a 64-byte chunk. -/
def chunkWords (chunk : List Nat) : List Nat :=
  (List.range 16).map (fun j =>
    chunk.getD (4 * j) 0 + 256 * chunk.getD (4 * j + 1) 0 +
      65536 * chunk.getD (4 * j + 2) 0 + 16777216 * chunk.getD (4 * j + 3) 0)

/-- One MD5 round on the running state. -/
def md5Round (M : List Nat) (st : Nat × Nat × Nat × Nat) (i : Nat) : Nat × Nat × Nat × Nat :=
  let f := add32 (add32 (md5F i st.2.1 st.2.2.1 st.2.2.2) st.1)
             (add32 (md5K.getD i 0) (M.getD (md5G i) 0))
  (st.2.2.2, add32 st.2.1 (rotl32 f (md5S.getD i 0)), st.2.1, st.2.2.1)

/-- Process one 64-byte chunk: 64 rounds, then add into the state. -/
def md5Chunk (st : Nat × Nat × Nat × Nat) (chunk : List Nat) : Nat × Nat × Nat × Nat :=
  let M := chunkWords chunk
  let r := (List.range 64).foldl (md5Round M) st
  (add32 st.1 r.1, add32 st.2.1 r.2.1, add32 st.2.2.1 r.2.2.1, add32 st.2.2.2 r.2.2.2)

/-- Split the padded message into 64-byte chunks. -/
def splitChunks (bs : List Nat) : List (List Nat) :=
  if h : bs = [] then []
  else bs.take 64 :: splitChunks (bs.drop 64)
termination_by bs.length
decreasing_by
  simp only [List.length_drop]
  exact Nat.sub_lt (List.length_pos.mpr h) (by norm_num)

def md5Init : Nat × Nat × Nat × Nat := (1732584193, 4023233417, 2562383102, 271733878)

/-- The 16-byte MD5 digest of a byte list. -/
def md5Bytes (msg : List Nat) : List Nat :=
  let st := (splitChunks (md5Pad msg)).foldl md5Chunk md5Init
  le4 st.1 ++ le4 st.2.1 ++ le4 st.2.2.1 ++ le4 st.2.2.2

def hexDigit (n : Nat) : Char :=
  if n < 10 then Char.ofNat (48 + n) else Char.ofNat (87 + n)

/-- Two lowercase hex characters of one byte (Go `%x` on a byte array
prints every byte as exactly two digits). -/
def byteHex (b : Nat) : List Char := [hexDigit (b / 16 % 16), hexDigit (b % 16)]

def bytesToHex (bs : List Nat) : String := String.mk ((bs.map byteHex).flatten)

/-- Go `fmt.Sprintf("%+v", params)` for a `SearchLogsArgs` value: field
names and values in declaration order. -/
def goPlusV (p : SearchLogsArgs) : String :=
  "\x7bQuery:" ++ p.Query ++ " StartTime:" ++ p.StartTime ++ " EndTime:" ++ p.EndTime ++
  " Severity:" ++ p.Severity ++ " Resource:" ++ p.Resource ++ " LogName:" ++ p.LogName ++
  " PageSize:" ++ toString p.PageSize ++ " OrderBy:" ++ p.OrderBy ++ "\x7d"

/-- Model of `LogCache.GenerateKey`, instantiated (as at the search tool call
site) at `SearchLogsArgs`: hex-rendered MD5 of the `%+v` rendering. -/
def GenerateKey (params : SearchLogsArgs) : String :=
  bytesToHex (md5Bytes (strBytes (goPlusV params)))

/-! ### Cache-hit responses of the three tools (C6)

The structured value each tool cache-hit branch hands to the
tool-invocation layer, modelled as a JSON value (object key order is
irrelevant to the claims). -/

inductive JVal
  | jnull
  | jstr (s : String)
  | jnum (n : Int)
  | jbool (b : Bool)
  | jarr (xs : List JVal)
  | jobj (fields : List (String × JVal))

/-- The top-level field of an object response, if any. -/
def JVal.lookupField (j : JVal) (key : String) : Option JVal :=
  match j with
  | .jobj fields => (fields.find? (fun kv => kv.1 == key)).map (fun kv => kv.2)
  | _ => none

/-- The resource descriptor as marshaled (`map[string]interface{}` with
`type` and `labels`; a nil resource marshals to `null`). -/
def resourceJVal (r : Option (String × List (String × String))) : JVal :=
  match r with
  | none => .jnull
  | some (ty, lbls) => .jobj [("type", .jstr ty), ("labels", .jobj (lbls.map (fun kv => (kv.1, .jstr kv.2))))]

/-- Model of `json.Marshal` of one `LogEntry`, following the struct tags of
list_log_entries.go (`omitempty` fields dropped when empty). -/
def logEntryJVal (e : LogEntry) : JVal :=
  .jobj
    ([("timestamp", .jstr e.Timestamp), ("severity", .jstr e.Severity),
      ("logName", .jstr e.LogName), ("resource", resourceJVal e.Resource)] ++
     (match e.Labels with
      | some lbls => [("labels", JVal.jobj (lbls.map (fun kv => (kv.1, JVal.jstr kv.2))))]
      | none => []) ++
     (if e.TextPayload ≠ "" then [("textPayload", JVal.jstr e.TextPayload)] else []) ++
     (match e.JSONPayload with
      | some s => [("jsonPayload", JVal.jstr s)]
      | none => []) ++
     (if e.InsertID ≠ "" then [("insertId", JVal.jstr e.InsertID)] else []) ++
     (if e.TraceID ≠ "" then [("traceId", JVal.jstr e.TraceID)] else []))

/-- The cache-hit response of `SearchLogsTool.Execute` (search_logs.go,
lines 376-394): query, count, entries and the `cached: true` tag. -/
def searchCacheHitResult (query : String) (cachedEntries : List LogEntry) : JVal :=
  .jobj [("query", .jstr query), ("count", .jnum cachedEntries.length),
         ("entries", .jarr (cachedEntries.map logEntryJVal)), ("cached", .jbool true)]

/-- The cache-hit response of `PresetQueryTool.Execute`
(preset_query.go): queryName, count, entries and the `cached: true`
tag. -/
def presetCacheHitResult (queryName : String) (cachedEntries : List LogEntry) : JVal :=
  .jobj [("queryName", .jstr queryName), ("count", .jnum cachedEntries.length),
         ("entries", .jarr (cachedEntries.map logEntryJVal)), ("cached", .jbool true)]

/-- The cache-hit response of `ListLogEntriesTools.Execute`
(list_log_entries.go, lines 260-274): `json.MarshalIndent` of the bare
cached entries list — a JSON array, not an object. -/
def listCacheHitResult (cachedEntries : List LogEntry) : JVal :=
  .jarr (cachedEntries.map logEntryJVal)

/-! ### Concrete sample values used by counterexamples and witnesses -/

/-- A `search_logs` request with every optional field left at its zero
value. -/
def emptyRequest : SearchLogsArgs := ⟨"", "", "", "", "", "", 0, ""⟩

/-- A sample stored log record. -/
def sampleLogEntry : LogEntry :=
  ⟨"2025-10-10T12:00:00Z", "ERROR", "projects/p/logs/run", none, none, "boom", none, "id1", ""⟩

/-- A sample remote entry whose text payload is "hello". -/
def sampleRemoteEntry : RemoteEntry :=
  ⟨1760140800, "INFO", "projects/p/logs/run", "id2", "", none, none, .text "hello"⟩

/-- A quota error carrying the ResourceExhausted gRPC code. -/
def quotaErrCode : GError := ⟨some 8, "rpc error: code = ResourceExhausted"⟩

/-- A quota error recognized by its text only. -/
def quotaErrText : GError := ⟨none, "Quota exceeded for quota metric"⟩

/-- A non-retryable error. -/
def fatalErr : GError := ⟨none, "permission denied"⟩

/-- The builder fb2 extends fb1: its clause list appends to that of fb1.  Every
FilterBuilder step only appends clauses, which is what the
default-time-constraint scan and the clause-membership arguments rely
on. -/
def ExtendsFB (fb fb' : FilterBuilder) : Prop :=
  ∃ l, fb'.filters = fb.filters ++ l

/-! ## Lemmas: substring containment -/

theorem isPrefixChars_append : ∀ (n post : List Char), isPrefixChars n (n ++ post) = true
  | [], _ => rfl
  | a :: as, post => by simp [isPrefixChars, isPrefixChars_append as post]

theorem isPrefixChars_mono : ∀ (n l bs : List Char),
    isPrefixChars n l = true → isPrefixChars n (l ++ bs) = true
  | [], _, _, _ => rfl
  | _ :: _, [], _, h => by simp [isPrefixChars] at h
  | a :: as, b :: bs', bs, h => by
    simp only [isPrefixChars, Bool.and_eq_true] at h ⊢
    exact ⟨h.1, isPrefixChars_mono as bs' bs h.2⟩

theorem hasSeg_here : ∀ (n post : List Char), hasSeg n (n ++ post) = true := by
  intro n post
  cases n with
  | nil => cases post <;> simp [hasSeg, isPrefixChars]
  | cons a as =>
    have h := isPrefixChars_append (a :: as) post
    simp only [List.cons_append] at h
    simp [hasSeg, h]

theorem hasSeg_middle : ∀ (pre n post : List Char), hasSeg n (pre ++ (n ++ post)) = true := by
  intro pre
  induction pre with
  | nil => intro n post; simpa using hasSeg_here n post
  | cons c cs ih =>
    intro n post
    have h := ih n post
    simp [hasSeg, h]

theorem hasSeg_append_right : ∀ (as bs n : List Char), hasSeg n bs = true → hasSeg n (as ++ bs) = true := by
  intro as
  induction as with
  | nil => intro bs n h; simpa using h
  | cons a rest ih =>
    intro bs n h
    have h2 := ih bs n h
    simp [hasSeg, h2]

theorem hasSeg_append_left : ∀ (as bs n : List Char), hasSeg n as = true → hasSeg n (as ++ bs) = true := by
  intro as
  induction as with
  | nil =>
    intro bs n h
    simp only [hasSeg] at h
    rw [List.isEmpty_iff] at h
    subst h
    cases bs <;> simp [hasSeg, isPrefixChars]
  | cons a rest ih =>
    intro bs n h
    simp only [hasSeg, Bool.or_eq_true] at h ⊢
    rcases h with h | h
    · exact Or.inl (isPrefixChars_mono _ _ _ h)
    · exact Or.inr (ih bs n h)

theorem strContains_append_left (a b x : String) (h : strContains a x = true) :
    strContains (a ++ b) x = true := by
  simp only [strContains, String.data_append] at h ⊢
  exact hasSeg_append_left _ _ _ h

theorem strContains_append_right (a b x : String) (h : strContains b x = true) :
    strContains (a ++ b) x = true := by
  simp only [strContains, String.data_append] at h ⊢
  exact hasSeg_append_right _ _ _ h

theorem strContains_refl (x : String) : strContains x x = true := by
  simpa [strContains] using hasSeg_here x.data []

theorem strContains_self_append (x post : String) : strContains (x ++ post) x = true := by
  simp only [strContains, String.data_append]
  exact hasSeg_here _ _

theorem goJoin_contains (sep : String) : ∀ (l : List String) (x : String),
    x ∈ l → strContains (goJoin sep l) x = true := by
  intro l
  induction l with
  | nil => intro x h; cases h
  | cons a rest ih =>
    intro x h
    cases rest with
    | nil =>
      rcases List.mem_singleton.mp h with rfl
      exact strContains_refl x
    | cons b rest' =>
      rcases List.mem_cons.mp h with rfl | h
      · simpa [goJoin, String.append_assoc] using strContains_self_append x (sep ++ goJoin sep (b :: rest'))
      · exact strContains_append_right _ _ _ (ih x h)

theorem build_contains_of_mem (fb : FilterBuilder) (x : String) (h : x ∈ fb.filters) :
    strContains fb.Build x = true := by
  have hne : fb.filters ≠ [] := by rintro he; rw [he] at h; cases h
  simp only [FilterBuilder.Build, hne, if_neg (by exact hne)]
  exact goJoin_contains _ _ _ h

/-! ## Lemmas: every builder step only appends clauses -/

theorem extendsFB_refl (fb : FilterBuilder) : ExtendsFB fb fb :=
  ⟨[], (List.append_nil _).symm⟩

theorem extendsFB_trans {a b c : FilterBuilder} (h1 : ExtendsFB a b) (h2 : ExtendsFB b c) :
    ExtendsFB a c := by
  obtain ⟨l1, e1⟩ := h1
  obtain ⟨l2, e2⟩ := h2
  exact ⟨l1 ++ l2, by rw [e2, e1, List.append_assoc]⟩

theorem mem_of_extendsFB {fb fb' : FilterBuilder} {x : String}
    (h : ExtendsFB fb fb') (hm : x ∈ fb.filters) : x ∈ fb'.filters := by
  obtain ⟨l, e⟩ := h
  rw [e]
  exact List.mem_append_left _ hm

theorem extendsFB_append (fb : FilterBuilder) (l : List String) :
    ExtendsFB fb ⟨fb.filters ++ l⟩ := ⟨l, rfl⟩

theorem extendsFB_addTimeRange (fb : FilterBuilder) (s e : String) :
    ExtendsFB fb (fb.AddTimeRange s e) := by
  simp only [FilterBuilder.AddTimeRange]
  refine extendsFB_trans
    (b := if s ≠ "" then ⟨fb.filters ++ [tsLowerClause s]⟩ else fb) ?_ ?_
  · split
    · exact ⟨_, rfl⟩
    · exact extendsFB_refl fb
  · split <;> split <;>
      first
        | exact extendsFB_append _ _
        | exact extendsFB_refl _

theorem extendsFB_addSeverity (fb : FilterBuilder) (s : String) :
    ExtendsFB fb (fb.AddSeverity s) := by
  simp only [FilterBuilder.AddSeverity]
  split
  · exact ⟨_, rfl⟩
  · exact extendsFB_refl fb

theorem extendsFB_addCloudRunService (fb : FilterBuilder) (s : String) :
    ExtendsFB fb (fb.AddCloudRunService s) := by
  simp only [FilterBuilder.AddCloudRunService]
  split
  · exact ⟨_, rfl⟩
  · exact extendsFB_refl fb

theorem extendsFB_addLogName (fb : FilterBuilder) (s : String) :
    ExtendsFB fb (fb.AddLogName s) := by
  simp only [FilterBuilder.AddLogName]
  split
  · exact ⟨_, rfl⟩
  · exact extendsFB_refl fb

theorem extendsFB_addKeywords (fb : FilterBuilder) (s : String) :
    ExtendsFB fb (fb.AddKeywords s) := by
  simp only [FilterBuilder.AddKeywords]
  split
  · refine extendsFB_trans
      (b := if strContains s "error" || strContains s "ERROR" then
              ⟨fb.filters ++ ["severity >= ERROR"]⟩ else fb) ?_ ?_
    · split
      · exact ⟨_, rfl⟩
      · exact extendsFB_refl fb
    · exact extendsFB_append _ _
  · exact extendsFB_refl fb

theorem extendsFB_parseQuery (q : String) (fb : FilterBuilder) :
    ExtendsFB fb (parseQueryForOptimizedFilters q fb) := by
  simp only [parseQueryForOptimizedFilters]
  refine extendsFB_trans ?_ (extendsFB_addKeywords _ _)
  split
  · split
    · exact extendsFB_addCloudRunService _ _
    · exact extendsFB_refl fb
  · exact extendsFB_refl fb

theorem extendsFB_resourceStep (fb : FilterBuilder) (r : String) :
    ExtendsFB fb (resourceStep fb r) := by
  simp only [resourceStep]
  split
  · exact ⟨_, rfl⟩
  · exact extendsFB_refl fb

theorem extendsFB_queryStep (fb : FilterBuilder) (q : String) :
    ExtendsFB fb (queryStep fb q) := by
  simp only [queryStep]
  split
  · exact extendsFB_parseQuery _ _
  · exact extendsFB_refl fb

/-- From the time-range step onwards, `preDefaultBuilder` only appends. -/
theorem extendsFB_preDefault (params : SearchLogsArgs) :
    ExtendsFB (NewFilterBuilder.AddTimeRange params.StartTime params.EndTime)
      (preDefaultBuilder params) := by
  refine extendsFB_trans (extendsFB_addSeverity _ params.Severity) ?_
  refine extendsFB_trans (extendsFB_resourceStep _ params.Resource) ?_
  refine extendsFB_trans (extendsFB_addLogName _ params.LogName) ?_
  exact extendsFB_queryStep _ params.Query

/-! ## C1: page-size policy -/

theorem searchCollect_length_le (q : String) (ps : Int) (stream : List RemoteEntry) :
    ∀ count : Int, (searchCollect q ps count stream).length ≤ (ps - count).toNat := by
  induction stream with
  | nil => intro count; simp [searchCollect]
  | cons e rest ih =>
    intro count
    simp only [searchCollect]
    split
    · simp
    · split
      · have h2 := ih (count + 1)
        simp only [List.length_cons]
        omega
      · have h2 := ih count
        omega

theorem listCollect_length_le (ps : Int) (stream : List RemoteEntry) :
    ∀ count : Int, (listCollect ps count stream).length ≤ (ps - count).toNat := by
  induction stream with
  | nil => intro count; simp [listCollect]
  | cons e rest ih =>
    intro count
    simp only [listCollect]
    split
    · simp
    · have h2 := ih (count + 1)
      simp only [List.length_cons]
      omega

/-- C1: in both `search_logs` and `list_log_entries`, the effective page
size is 10 when the request leaves it at 0, the requested value when it
lies in [1, 20], and exactly 20 above 20; and the fetch loop never
returns more entries than the effective page size. -/
theorem c1_page_size_policy :
    (searchNormalizePageSize 0 = 10 ∧ listNormalizePageSize 0 = 10) ∧
    (∀ ps : Int, 1 ≤ ps → ps ≤ 20 →
      searchNormalizePageSize ps = ps ∧ listNormalizePageSize ps = ps) ∧
    (∀ ps : Int, ps > 20 →
      searchNormalizePageSize ps = 20 ∧ listNormalizePageSize ps = 20) ∧
    (∀ (params : SearchLogsArgs) (stream : List RemoteEntry),
      (searchLogs { params with PageSize := searchNormalizePageSize params.PageSize } stream).length
        ≤ (searchNormalizePageSize params.PageSize).toNat) ∧
    (∀ (params : ListLogEntriesArgs) (stream : List RemoteEntry),
      (listLogEntries { params with PageSize := listNormalizePageSize params.PageSize } stream).length
        ≤ (listNormalizePageSize params.PageSize).toNat) := by
  refine ⟨⟨rfl, rfl⟩, ?_, ?_, ?_, ?_⟩
  · intro ps h1 h2
    constructor <;> simp only [searchNormalizePageSize, listNormalizePageSize] <;>
      split_ifs <;> omega
  · intro ps h
    constructor <;> simp only [searchNormalizePageSize, listNormalizePageSize] <;>
      split_ifs <;> omega
  · intro params stream
    simpa using searchCollect_length_le params.Query (searchNormalizePageSize params.PageSize) stream 0
  · intro params stream
    simpa using listCollect_length_le (listNormalizePageSize params.PageSize) stream 0

/-- C1 witness: requested page size 15 is kept, 500 is clamped to 20,
and on a concrete three-entry stream the loop yields at most 20
entries. -/
theorem c1_page_size_policy_witness :
    ((1 : Int) ≤ 15 ∧ (15 : Int) ≤ 20 ∧ searchNormalizePageSize 15 = 15) ∧
    ((500 : Int) > 20 ∧ listNormalizePageSize 500 = 20) ∧
    (listLogEntries { Filter := "", PageSize := listNormalizePageSize 500, OrderBy := "" }
        [sampleRemoteEntry, sampleRemoteEntry, sampleRemoteEntry]).length
      ≤ (listNormalizePageSize 500).toNat :=
  ⟨⟨by norm_num, by norm_num, (c1_page_size_policy.2.1 15 (by norm_num) (by norm_num)).1⟩,
   ⟨by norm_num, (c1_page_size_policy.2.2.1 500 (by norm_num)).2⟩,
   c1_page_size_policy.2.2.2.2 ⟨"", 500, ""⟩ [sampleRemoteEntry, sampleRemoteEntry, sampleRemoteEntry]⟩

/-! ## C2: retry coordinator -/

/-- C2: an operation failing twice with quota errors and succeeding on
the third call returns success after exactly 3 invocations with two
strictly increasing sleeps; a single non-quota failure is invoked once
and returned unchanged; and retryability is exactly the
ResourceExhausted status code or a case-insensitive match of the three
quota phrases. -/
theorem c2_retry_coordinator :
    (∀ e1 e2 : GError, isQuotaExceededError e1 = true → isQuotaExceededError e2 = true →
      ExecuteWithBackoff NewRateLimiter
          (fun k => if k = 0 then some e1 else if k = 1 then some e2 else none) =
        ⟨none, 3, [calculateBackoff NewRateLimiter 0, calculateBackoff NewRateLimiter 1]⟩ ∧
      calculateBackoff NewRateLimiter 0 < calculateBackoff NewRateLimiter 1) ∧
    (∀ e : GError, isQuotaExceededError e = false →
      ExecuteWithBackoff NewRateLimiter (fun _ => some e) =
        ⟨some (BackoffErr.direct e), 1, []⟩) ∧
    (∀ e : GError, isQuotaExceededError e = true ↔
      (e.grpcCode = some codeResourceExhausted ∨
       strContains (lowerStr e.msg) "quota exceeded" = true ∨
       strContains (lowerStr e.msg) "rate limit" = true ∨
       strContains (lowerStr e.msg) "resource exhausted" = true)) := by
  refine ⟨?_, ?_, ?_⟩
  · intro e1 e2 h1 h2
    refine ⟨?_, ?_⟩
    · simp [ExecuteWithBackoff, NewRateLimiter, backoffGo, h1, h2]
    · norm_num [calculateBackoff, NewRateLimiter]
  · intro e h
    simp [ExecuteWithBackoff, NewRateLimiter, backoffGo, h]
  · intro e
    simp only [isQuotaExceededError]
    by_cases hc : e.grpcCode = some codeResourceExhausted
    · simp [hc]
    · have hbe : (e.grpcCode == some codeResourceExhausted) = false := by
        simpa using hc
      simp [hbe, hc, Bool.or_eq_true]
      tauto

/-- C2 witness: concrete quota errors (one by status code, one by text)
drive the 3-call success path, and a concrete fatal error returns
immediately. -/
theorem c2_retry_coordinator_witness :
    (isQuotaExceededError quotaErrCode = true ∧ isQuotaExceededError quotaErrText = true ∧
      ExecuteWithBackoff NewRateLimiter
          (fun k => if k = 0 then some quotaErrCode else if k = 1 then some quotaErrText else none) =
        ⟨none, 3, [calculateBackoff NewRateLimiter 0, calculateBackoff NewRateLimiter 1]⟩) ∧
    (isQuotaExceededError fatalErr = false ∧
      ExecuteWithBackoff NewRateLimiter (fun _ => some fatalErr) =
        ⟨some (BackoffErr.direct fatalErr), 1, []⟩) :=
  ⟨⟨by decide, by decide,
    (c2_retry_coordinator.1 quotaErrCode quotaErrText (by decide) (by decide)).1⟩,
   ⟨by decide, c2_retry_coordinator.2.1 fatalErr (by decide)⟩⟩

/-! ## C3: default 24-hour time constraint -/

/-- C3 counterexample: the request with free-text query `"timestamp"`
and no explicit start/end time compiles to a filter with no lower-bound
timestamp clause at all — the keyword clause embeds the word
`timestamp`, which defeats the scan in `AddDefaultTimeConstraint`. -/
theorem c3_counterexample :
    (⟨"timestamp", "", "", "", "", "", 10, ""⟩ : SearchLogsArgs).StartTime = "" ∧
    (⟨"timestamp", "", "", "", "", "", 10, ""⟩ : SearchLogsArgs).EndTime = "" ∧
    strContains (buildOptimizedFilter ⟨"timestamp", "", "", "", "", "", 10, ""⟩ 1760140800)
      "timestamp >= \"" = false := by
  refine ⟨rfl, rfl, ?_⟩
  decide

/-- C3 (amended): with no explicit start/end time AND no accumulated
clause containing the substring `timestamp` (the scan the code actually
performs), the compiled filter contains the `now − 24h` lower-bound
clause; and with an explicit start time the default step adds
nothing. -/
theorem c3_default_time_constraint :
    (∀ (params : SearchLogsArgs) (now : Int),
      params.StartTime = "" → params.EndTime = "" →
      (∀ c ∈ (preDefaultBuilder params).filters, strContains c "timestamp" = false) →
      strContains (buildOptimizedFilter params now)
        (tsLowerClause (rfc3339 (now - 24 * 3600))) = true) ∧
    (∀ (params : SearchLogsArgs) (now : Int), params.StartTime ≠ "" →
      (preDefaultBuilder params).AddDefaultTimeConstraint now = preDefaultBuilder params) := by
  constructor
  · intro params now _hs _he hno
    have hany : (preDefaultBuilder params).filters.any (fun f => strContains f "timestamp") = false := by
      rw [List.any_eq_false]
      intro c hc
      simp [hno c hc]
    simp only [buildOptimizedFilter, FilterBuilder.AddDefaultTimeConstraint, hany,
      Bool.not_false, if_true]
    exact build_contains_of_mem _ _ (List.mem_append_right _ (List.mem_singleton_self _))
  · intro params now hs
    have hmem : tsLowerClause params.StartTime ∈ (preDefaultBuilder params).filters := by
      apply mem_of_extendsFB (extendsFB_preDefault params)
      simp only [FilterBuilder.AddTimeRange, NewFilterBuilder, hs]
      split <;> simp
    have hpre : strContains "timestamp >= \"" "timestamp" = true := by decide
    have hcont : strContains (tsLowerClause params.StartTime) "timestamp" = true :=
      strContains_append_left "timestamp >= \"" (params.StartTime ++ "\"") "timestamp" hpre
    have hany : (preDefaultBuilder params).filters.any (fun f => strContains f "timestamp") = true :=
      List.any_eq_true.mpr ⟨_, hmem, hcont⟩
    simp [FilterBuilder.AddDefaultTimeConstraint, hany]

/-- C3 witness: the query `"timeout"` with no times gets the injected
24-hour bound at a concrete instant; a request with an explicit start
time leaves the default step inert. -/
theorem c3_default_time_constraint_witness :
    ((⟨"timeout", "", "", "", "", "", 10, ""⟩ : SearchLogsArgs).StartTime = "" ∧
     strContains (buildOptimizedFilter ⟨"timeout", "", "", "", "", "", 10, ""⟩ 1760140800)
       (tsLowerClause (rfc3339 (1760140800 - 24 * 3600))) = true) ∧
    ((⟨"q", "2025-01-01T00:00:00Z", "", "", "", "", 10, ""⟩ : SearchLogsArgs).StartTime ≠ "" ∧
     (preDefaultBuilder ⟨"q", "2025-01-01T00:00:00Z", "", "", "", "", 10, ""⟩).AddDefaultTimeConstraint
         1760140800 =
       preDefaultBuilder ⟨"q", "2025-01-01T00:00:00Z", "", "", "", "", 10, ""⟩) :=
  ⟨⟨rfl, c3_default_time_constraint.1 ⟨"timeout", "", "", "", "", "", 10, ""⟩ 1760140800 rfl rfl
      (by decide)⟩,
   ⟨by decide, c3_default_time_constraint.2 ⟨"q", "2025-01-01T00:00:00Z", "", "", "", "", 10, ""⟩
      1760140800 (by decide)⟩⟩

/-! ## C4: cache TTL boundary -/

/-- C4 counterexample: at `now − creation = ttl` exactly (a 120s TTL
entry read 120s after creation) the code still returns a hit, because
the miss condition is `time.Since(entry.Timestamp) > entry.TTL` —
contradicting the claimed miss for every `now − c ≥ t`. -/
theorem c4_counterexample :
    ¬((120000000000 : Int) - 0 < 120000000000) ∧
    LogCache.Get (LogCache.Set LogCache.empty "k" [sampleLogEntry] 120000000000 0) "k"
      120000000000 = some [sampleLogEntry] := by
  refine ⟨by norm_num, ?_⟩
  rfl

/-- C4 (amended): an entry set at `created` with TTL `t` is returned by
`Get` exactly while `now − created ≤ t` — the validity interval is
closed, `[creation, creation + ttl]` — and is a miss for
`now − created > t`.  `Get` is embedded as a pure reader (the Go code
takes only a read lock and never writes), so reads cannot mutate the
cache or extend the TTL. -/
theorem c4_cache_ttl (c : LogCache) (key : String) (recs : List LogEntry)
    (ttl created now : Int) :
    (now - created ≤ ttl →
      LogCache.Get (LogCache.Set c key recs ttl created) key now = some recs) ∧
    (now - created > ttl →
      LogCache.Get (LogCache.Set c key recs ttl created) key now = none) := by
  have hkey : (LogCache.Set c key recs ttl created) key = some ⟨recs, created, ttl⟩ := by
    simp [LogCache.Set]
  constructor <;> intro h
  · simp only [LogCache.Get, hkey]
    rw [if_neg (by omega)]
  · simp only [LogCache.Get, hkey]
    rw [if_pos (by omega)]

/-- C4 witness: a fresh 120s entry is a hit 60s after creation and a
miss 300s after creation. -/
theorem c4_cache_ttl_witness :
    ((60000000000 : Int) - 0 ≤ 120000000000 ∧
      LogCache.Get (LogCache.Set LogCache.empty "k" [sampleLogEntry] 120000000000 0) "k"
        60000000000 = some [sampleLogEntry]) ∧
    ((300000000000 : Int) - 0 > 120000000000 ∧
      LogCache.Get (LogCache.Set LogCache.empty "k" [sampleLogEntry] 120000000000 0) "k"
        300000000000 = none) :=
  ⟨⟨by norm_num,
    (c4_cache_ttl LogCache.empty "k" [sampleLogEntry] 120000000000 0 60000000000).1 (by norm_num)⟩,
   ⟨by norm_num,
    (c4_cache_ttl LogCache.empty "k" [sampleLogEntry] 120000000000 0 300000000000).2 (by norm_num)⟩⟩

/-! ## C5: empty request -/

/-- C5 counterexample: the empty request does not compile to the empty
filter string — the quota-guardrail default time clause is injected. -/
theorem c5_counterexample :
    buildOptimizedFilter emptyRequest 1760140800 = "timestamp >= \"2025-10-10T00:00:00Z\"" ∧
    buildOptimizedFilter emptyRequest 1760140800 ≠ "" := by
  constructor
  · rfl
  · decide

/-- C5 (amended): a builder holding no clauses yields the empty filter
string, but the full compile path on the empty request yields exactly
the injected default 24-hour lower-bound clause, never the empty
string. -/
theorem c5_empty_request_filter :
    FilterBuilder.Build ⟨[]⟩ = "" ∧
    (∀ now : Int,
      buildOptimizedFilter emptyRequest now = tsLowerClause (rfc3339 (now - 24 * 3600))) := by
  exact ⟨rfl, fun now => rfl⟩

/-! ## C6: cached-marker on cache hits -/

/-- C6 counterexample: the cache-hit response of `list_log_entries` is
the bare entries array; it carries neither a `cached: true` marker nor a
count. -/
theorem c6_counterexample :
    (listCacheHitResult [sampleLogEntry]).lookupField "cached" = none ∧
    (listCacheHitResult [sampleLogEntry]).lookupField "count" = none :=
  ⟨rfl, rfl⟩

/-- C6 (amended): the cache-hit responses of `search_logs` and
`preset_query` carry `cached: true` together with the count and the
entries, but the `list_log_entries` cache hit returns the bare entries
array with no marker. -/
theorem c6_cached_marker :
    (∀ (q : String) (entries : List LogEntry),
      (searchCacheHitResult q entries).lookupField "cached" = some (.jbool true) ∧
      (searchCacheHitResult q entries).lookupField "count" = some (.jnum entries.length) ∧
      (searchCacheHitResult q entries).lookupField "entries" =
        some (.jarr (entries.map logEntryJVal))) ∧
    (∀ (n : String) (entries : List LogEntry),
      (presetCacheHitResult n entries).lookupField "cached" = some (.jbool true) ∧
      (presetCacheHitResult n entries).lookupField "count" = some (.jnum entries.length) ∧
      (presetCacheHitResult n entries).lookupField "entries" =
        some (.jarr (entries.map logEntryJVal))) ∧
    (∀ entries : List LogEntry,
      listCacheHitResult entries = .jarr (entries.map logEntryJVal) ∧
      (listCacheHitResult entries).lookupField "cached" = none) := by
  refine ⟨fun q entries => ⟨rfl, rfl, rfl⟩, fun n entries => ⟨rfl, rfl, rfl⟩,
    fun entries => ⟨rfl, rfl⟩⟩

/-! ## C7: preset resolution -/

set_option maxHeartbeats 1000000 in
/-- C7: `cloud_run_service_errors` with one parameter resolves to a
filter carrying the service-name equality and page size 15 with no
error; with zero parameters it fails with a missing-parameter error
naming the preset; an unknown preset fails with an unknown-preset
error; both failures return an empty filter and page size 0. -/
theorem c7_preset_resolution :
    (∀ now : Int,
      strContains (GetPresetQuery now "cloud_run_service_errors" ["svc-a"]).filter
        "resource.labels.service_name=\"svc-a\"" = true ∧
      (GetPresetQuery now "cloud_run_service_errors" ["svc-a"]).pageSize = 15 ∧
      (GetPresetQuery now "cloud_run_service_errors" ["svc-a"]).err = none) ∧
    (∀ now : Int,
      (GetPresetQuery now "cloud_run_service_errors" []).filter = "" ∧
      (GetPresetQuery now "cloud_run_service_errors" []).pageSize = 0 ∧
      (GetPresetQuery now "cloud_run_service_errors" []).err =
        some "service name parameter required for cloud_run_service_errors" ∧
      strContains "service name parameter required for cloud_run_service_errors"
        "cloud_run_service_errors" = true) ∧
    (∀ now : Int,
      (GetPresetQuery now "nonexistent" []).filter = "" ∧
      (GetPresetQuery now "nonexistent" []).pageSize = 0 ∧
      (GetPresetQuery now "nonexistent" []).err =
        some ("preset query \x27nonexistent\x27 not found")) := by
  refine ⟨?_, ?_, ?_⟩
  · intro now
    refine ⟨?_, rfl, rfl⟩
    have hf : (GetPresetQuery now "cloud_run_service_errors" ["svc-a"]).filter =
        ("resource.type=\"cloud_run_revision\" AND resource.labels.service_name=\"svc-a\" AND severity>=ERROR AND timestamp>=\"" ++
          (rfc3339 (now - 2 * 3600) ++ "\"")) := rfl
    rw [hf]
    exact strContains_append_left _ _ _ (by decide)
  · intro now
    exact ⟨rfl, rfl, rfl, by decide⟩
  · intro now
    exact ⟨rfl, rfl, rfl⟩

/-! ## C8: service-name extraction from the free-text query -/

/-- C8 counterexample: the query `"hello-world crash"` has a hyphenated
token longer than 5 characters, yet the compiled filter contains no
service-name clause — the extraction only runs when the query mentions
`casone`, `tenant` or `api`. -/
theorem c8_counterexample :
    ("hello-world" ∈ goFields (lowerStr "hello-world crash") ∧
      strContains "hello-world" "-" = true ∧ "hello-world".length > 5) ∧
    strContains (buildOptimizedFilter ⟨"hello-world crash", "", "", "", "", "", 10, ""⟩ 1760140800)
      "resource.labels.service_name=" = false :=
  ⟨⟨by decide, by decide, by decide⟩, by decide⟩

theorem extendsFB_addDefaultTimeConstraint (fb : FilterBuilder) (now : Int) :
    ExtendsFB fb (fb.AddDefaultTimeConstraint now) := by
  simp only [FilterBuilder.AddDefaultTimeConstraint]
  split
  · exact ⟨_, rfl⟩
  · exact extendsFB_refl fb

theorem mem_parseQuery_service (q : String) (fb : FilterBuilder) (tok : String)
    (hgate : (strContains (lowerStr q) "casone" || strContains (lowerStr q) "tenant" ||
              strContains (lowerStr q) "api") = true)
    (hfind : (goFields (lowerStr q)).find?
        (fun part => strContains part "-" && part.length > 5) = some tok)
    (htok : tok ≠ "") :
    ("resource.labels.service_name=\"" ++ tok ++ "\"") ∈
      (parseQueryForOptimizedFilters q fb).filters := by
  simp only [parseQueryForOptimizedFilters, hgate, if_true, hfind]
  apply mem_of_extendsFB (extendsFB_addKeywords _ _)
  simp only [FilterBuilder.AddCloudRunService, htok, if_pos, if_neg]
  have : ("resource.labels.service_name=\"" ++ tok ++ "\"") ∈
      ["resource.type=\"cloud_run_revision\"", "resource.labels.service_name=\"" ++ tok ++ "\""] := by
    simp
  split
  · exact List.mem_append_right _ this
  · simp_all

/-- C8 (amended): the hyphenated-token service-name heuristic only runs
when the lowercased query mentions `casone`, `tenant` or `api`; under
that gate, the first whitespace-delimited token containing a hyphen and
longer than 5 characters becomes a service-name equality clause of the
compiled filter. -/
theorem c8_service_name_extraction (params : SearchLogsArgs) (now : Int) (tok : String)
    (hgate : (strContains (lowerStr params.Query) "casone" ||
              strContains (lowerStr params.Query) "tenant" ||
              strContains (lowerStr params.Query) "api") = true)
    (hfind : (goFields (lowerStr params.Query)).find?
        (fun part => strContains part "-" && part.length > 5) = some tok) :
    strContains (buildOptimizedFilter params now)
      ("resource.labels.service_name=\"" ++ tok ++ "\"") = true := by
  have hQ : params.Query ≠ "" := by
    intro h
    rw [h] at hgate
    exact absurd hgate (by decide)
  have hprop := List.find?_some hfind
  have hdash : strContains tok "-" = true := by
    simp only [Bool.and_eq_true] at hprop
    exact hprop.1
  have htok : tok ≠ "" := by
    intro h
    rw [h] at hdash
    exact absurd hdash (by decide)
  have hmem : ("resource.labels.service_name=\"" ++ tok ++ "\"") ∈
      (preDefaultBuilder params).filters := by
    simp only [preDefaultBuilder, queryStep, if_pos hQ]
    exact mem_parseQuery_service params.Query _ tok hgate hfind htok
  have hmem2 := mem_of_extendsFB (extendsFB_addDefaultTimeConstraint (preDefaultBuilder params) now) hmem
  exact build_contains_of_mem _ _ hmem2

/-- C8 witness: the query `"error in casone-backend-prod"` passes the
gate and its hyphenated token lands in the compiled filter as a
service-name clause. -/
theorem c8_service_name_extraction_witness :
    (strContains (lowerStr "error in casone-backend-prod") "casone" ||
     strContains (lowerStr "error in casone-backend-prod") "tenant" ||
     strContains (lowerStr "error in casone-backend-prod") "api") = true ∧
    (goFields (lowerStr "error in casone-backend-prod")).find?
        (fun part => strContains part "-" && part.length > 5) = some "casone-backend-prod" ∧
    strContains
      (buildOptimizedFilter ⟨"error in casone-backend-prod", "", "", "", "", "", 10, ""⟩ 1760140800)
      ("resource.labels.service_name=\"" ++ "casone-backend-prod" ++ "\"") = true :=
  ⟨by decide, by decide,
   c8_service_name_extraction ⟨"error in casone-backend-prod", "", "", "", "", "", 10, ""⟩
     1760140800 "casone-backend-prod" (by decide) (by decide)⟩

/-! ## C9: cache-key generation -/

theorem flatten_byteHex_length (l : List Nat) : ((l.map byteHex).flatten).length = 2 * l.length := by
  induction l with
  | nil => rfl
  | cons b rest ih =>
    simp only [List.map_cons, List.flatten_cons, List.length_append, ih, List.length_cons]
    have hb : (byteHex b).length = 2 := rfl
    omega

theorem bytesToHex_length (bs : List Nat) : (bytesToHex bs).length = 2 * bs.length := by
  show ((bs.map byteHex).flatten).length = 2 * bs.length
  exact flatten_byteHex_length bs

theorem md5Bytes_length (msg : List Nat) : (md5Bytes msg).length = 16 := by
  simp [md5Bytes, le4]

theorem generateKey_length (p : SearchLogsArgs) : (GenerateKey p).length = 32 := by
  unfold GenerateKey
  rw [bytesToHex_length, md5Bytes_length]

/-- C9: structurally equal requests produce the same cache key, and the
key is a fixed-length opaque string — 32 lowercase hex characters for
every input. -/
theorem c9_generate_key (R1 R2 : SearchLogsArgs) (h : R1 = R2) :
    GenerateKey R1 = GenerateKey R2 ∧ (GenerateKey R1).length = 32 :=
  ⟨by rw [h], generateKey_length R1⟩

/-- C9 witness: a concrete request equals itself and its key has length
32. -/
theorem c9_generate_key_witness :
    GenerateKey ⟨"timeout", "", "", "", "", "", 10, "timestamp desc"⟩ =
      GenerateKey ⟨"timeout", "", "", "", "", "", 10, "timestamp desc"⟩ ∧
    (GenerateKey ⟨"timeout", "", "", "", "", "", 10, "timestamp desc"⟩).length = 32 :=
  c9_generate_key ⟨"timeout", "", "", "", "", "", 10, "timestamp desc"⟩
    ⟨"timeout", "", "", "", "", "", 10, "timestamp desc"⟩ rfl

/-! ## C10: client-side matching in the search loop -/

theorem searchCollect_eq (q : String) (ps : Int) (stream : List RemoteEntry) :
    ∀ count : Int,
      searchCollect q ps count stream =
        ((stream.filter (fun e => matchesQuery e q)).map convertEntry).take (ps - count).toNat := by
  induction stream with
  | nil => intro count; simp [searchCollect]
  | cons e rest ih =>
    intro count
    by_cases hc : count ≥ ps
    · have h0 : (ps - count).toNat = 0 := by omega
      simp [searchCollect, hc, h0]
    · by_cases hm : matchesQuery e q = true
      · have h1 : (ps - count).toNat = (ps - (count + 1)).toNat + 1 := by omega
        simp [searchCollect, hc, hm, List.filter_cons, h1, ih (count + 1)]
      · simp [searchCollect, hc, hm, List.filter_cons, ih count]

/-- C10: the search loop returns exactly the query-matching prefix of
the fetched stream truncated at the page size; structured queries
(mentioning `service_name` or `cloud_run`) skip client-side matching
wholesale; otherwise matching is a case-insensitive substring test
against log name, text or marshaled-JSON payload, and label keys and
values; and on a concrete stream of three non-matching entries with
page size 2 the result is empty although three remote entries exist. -/
theorem c10_search_matching :
    (∀ (params : SearchLogsArgs) (stream : List RemoteEntry),
      searchLogs params stream =
        ((stream.filter (fun e => matchesQuery e params.Query)).map convertEntry).take
          params.PageSize.toNat) ∧
    (∀ (e : RemoteEntry) (q : String), isStructuredQuery q = true → matchesQuery e q = true) ∧
    (∀ (e : RemoteEntry) (q : String), isStructuredQuery q = false →
      matchesQuery e q =
        (strContains (lowerStr e.LogName) (lowerStr q) ||
         (match e.Payload with
          | .text s => strContains (lowerStr s) (lowerStr q)
          | .jsonStr s => strContains (lowerStr s) (lowerStr q)
          | .nothing => false) ||
         (match e.Labels with
          | some lbls => lbls.any (fun kv =>
              strContains (lowerStr kv.1) (lowerStr q) ||
              strContains (lowerStr kv.2) (lowerStr q))
          | none => false))) ∧
    ((List.replicate 3 sampleRemoteEntry).length ≥ (2 : Int).toNat ∧
      (searchLogs ⟨"nomatch-xyz", "", "", "", "", "", 2, ""⟩
          (List.replicate 3 sampleRemoteEntry)).length = 0) := by
  refine ⟨?_, ?_, ?_, by decide, by decide⟩
  · intro params stream
    simpa using searchCollect_eq params.Query params.PageSize stream 0
  · intro e q h
    simp [matchesQuery, h]
  · intro e q h
    simp [matchesQuery, h]

/-- C10 witness: a structured query matches any entry without client
filtering; the plain query `"hello"` is matched by the substring
test. -/
theorem c10_search_matching_witness :
    (isStructuredQuery "service_name" = true ∧
      matchesQuery sampleRemoteEntry "service_name" = true) ∧
    (isStructuredQuery "hello" = false ∧
      matchesQuery sampleRemoteEntry "hello" =
        (strContains (lowerStr sampleRemoteEntry.LogName) (lowerStr "hello") ||
         (match sampleRemoteEntry.Payload with
          | .text s => strContains (lowerStr s) (lowerStr "hello")
          | .jsonStr s => strContains (lowerStr s) (lowerStr "hello")
          | .nothing => false) ||
         (match sampleRemoteEntry.Labels with
          | some lbls => lbls.any (fun kv =>
              strContains (lowerStr kv.1) (lowerStr "hello") ||
              strContains (lowerStr kv.2) (lowerStr "hello"))
          | none => false))) :=
  ⟨⟨by decide, c10_search_matching.2.1 sampleRemoteEntry "service_name" (by decide)⟩,
   ⟨by decide, c10_search_matching.2.2.1 sampleRemoteEntry "hello" (by decide)⟩⟩

/-- C5 witness: the amended statement instantiated at a concrete
instant. -/
theorem c5_empty_request_filter_witness :
    buildOptimizedFilter emptyRequest 1760140800 =
      tsLowerClause (rfc3339 (1760140800 - 24 * 3600)) :=
  c5_empty_request_filter.2 1760140800

/-- C6 witness: a concrete search cache hit carries the marker, a
concrete list cache hit does not. -/
theorem c6_cached_marker_witness :
    (searchCacheHitResult "timeout" [sampleLogEntry]).lookupField "cached" =
      some (.jbool true) ∧
    (listCacheHitResult [sampleLogEntry]).lookupField "cached" = none :=
  ⟨(c6_cached_marker.1 "timeout" [sampleLogEntry]).1,
   (c6_cached_marker.2.2 [sampleLogEntry]).2⟩

/-- C7 witness: resolution at a concrete instant. -/
theorem c7_preset_resolution_witness :
    strContains (GetPresetQuery 1760140800 "cloud_run_service_errors" ["svc-a"]).filter
      "resource.labels.service_name=\"svc-a\"" = true ∧
    (GetPresetQuery 1760140800 "cloud_run_service_errors" ["svc-a"]).pageSize = 15 ∧
    (GetPresetQuery 1760140800 "nonexistent" []).err =
      some ("preset query \x27nonexistent\x27 not found") :=
  ⟨(c7_preset_resolution.1 1760140800).1, (c7_preset_resolution.1 1760140800).2.1,
   (c7_preset_resolution.2.2 1760140800).2.2⟩

end O11y
